import Mathlib

/-!
Shallow embedding of Joentze/bun-vite-react-hono-supabase-starter for
verification of its natural-language specification.

Covered source artifacts:
- the Hono API mount (src/unnamed/part_001): a router, a basePath call whose
  return value is discarded, a mounted projects sub-router, an exported fetch;
- the session gate beforeLoad (src/src/routes/_app.tsx);
- the shell layout toggle state (src/src/routes/_app.tsx, useDisclosure);
- the drizzle DEFAULT_COLUMNS helper (src/unnamed/part_002);
- the TanStack Query hooks for the projects entity
  (src/.cursor/rules/client-tanstack-hooks.mdc): query options, create,
  update, delete mutations with onSuccess cache invalidation.

Paths are modelled as lists of segments, so the request path "/api/projects"
is the list of segments api, projects, and the root path "/" is the empty
list.
-/

namespace Starter

/-! ### Hono router model -/

/-- An HTTP response: status code and text body. -/
structure Resp where
  status : Nat
  body : String
deriving DecidableEq

/-- A request path, as its list of segments ("/" is the empty list). -/
abbrev ReqPath := List String

/-- A sub-router: maps the sub-path (relative to the mount point) to a
response, none when the sub-router has no matching route. -/
abbrev SubRouter := ReqPath → Option Resp

/-- Hono mergePath: joins a base path and a relative path. -/
def mergePath (base p : ReqPath) : ReqPath := base ++ p

/-- A Hono router instance: its current base path and the sub-routers
registered on it, each at its absolute mount path. -/
structure Hono where
  base : ReqPath
  mounts : List (ReqPath × SubRouter)

/-- new Hono(): empty base path, no routes. -/
def Hono.new : Hono := ⟨[], []⟩

/-- Hono app.basePath(p): returns a NEW instance whose base path is the merge
of the current base path and p. It does not mutate the receiver; the caller
must use the returned instance for the prefix to take effect. -/
def Hono.basePath (h : Hono) (p : ReqPath) : Hono :=
  { h with base := mergePath h.base p }

/-- Hono app.route(p, sub): registers the sub-router at the current base path
merged with p. -/
def Hono.route (h : Hono) (p : ReqPath) (sub : SubRouter) : Hono :=
  { h with mounts := h.mounts ++ [(mergePath h.base p, sub)] }

/-- If the mount path is a leading segment sequence of the request path,
returns the remaining sub-path handed to the sub-router. -/
def consumeMount : ReqPath → ReqPath → Option ReqPath
  | [], rest => some rest
  | _ :: _, [] => none
  | m :: ms, p :: ps => if m = p then consumeMount ms ps else none

/-- The 404 response Hono serves when no route matches. -/
def notFoundResp : Resp := ⟨404, "404 Not Found"⟩

/-- Hono app.fetch: dispatches a request path to the first registered
sub-router whose mount path matches and which answers the sub-path; unmatched
requests get the 404 response. -/
def Hono.fetch (h : Hono) (p : ReqPath) : Resp :=
  match h.mounts.findSome? (fun mnt => (consumeMount mnt.1 p).bind mnt.2) with
  | some r => r
  | none => notFoundResp

/-- Modelled from the spec: the projects sub-router (imported from
"./routes/base" / "#routes/projects.ts") is not among the source files; per
the spec and the in-repo vitest test, a request to its root path answers
status 200 with the literal body "Hello World". -/
def projectsRouter : SubRouter := fun p =>
  if p = [] then some ⟨200, "Hello World"⟩ else none

/-- The API mount, as written in the source: a fresh router, a basePath call
whose returned instance is discarded (mirrored here by a discarded let), then
the projects sub-router mounted at "/projects", and fetch exported. -/
def api : Hono :=
  let api0 := Hono.new
  let _discarded := api0.basePath ["api"]
  api0.route ["projects"] projectsRouter

/-- The .request helper of a Hono sub-router used by the vitest test: the
response of the sub-router, 404 when it has no matching route. -/
def projectsRequest (p : ReqPath) : Resp :=
  match projectsRouter p with
  | some r => r
  | none => notFoundResp

/-! ### Session gate (src/src/routes/_app.tsx) -/

/-- An authenticated session (contents opaque; only presence matters). -/
structure Session where
  userId : String
deriving DecidableEq

/-- The data field of a supabase.auth.getSession() result: the current
session, or none when no session exists. -/
structure SessionData where
  session : Option Session
deriving DecidableEq

/-- A supabase.auth.getSession() result: data and error. The provider reports
an absent session as data with session none and error none, not as an error. -/
structure GetSessionResult where
  data : SessionData
  error : Option String
deriving DecidableEq

/-- Outcome of a route beforeLoad: either a thrown redirect (nothing below
this subtree renders) or proceeding with the context passed to descendants. -/
inductive GateOutcome where
  | redirectTo (path : String)
  | proceed (ctx : SessionData)
deriving DecidableEq

/-- beforeLoad of the protected "/_app" route: await getSession(); if error
throw redirect to "/login", otherwise return data. -/
def beforeLoad (r : GetSessionResult) : GateOutcome :=
  match r.error with
  | some _ => .redirectTo "/login"
  | none => .proceed r.data

/-! ### Drizzle schema helper (src/unnamed/part_002, DEFAULT_COLUMNS) -/

/-- A drizzle pg-core column definition, tracking the builder flags the
source sets: SQL name and type, NOT NULL, PRIMARY KEY, and whether any
default value is declared (with defaultNow as the only default used). -/
structure PgColumn where
  colName : String
  sqlType : String
  isNotNull : Bool
  isPrimaryKey : Bool
  hasDefault : Bool
  defaultIsNow : Bool
deriving DecidableEq

/-- drizzle uuid(n): a uuid column with no modifier set. -/
def uuid (n : String) : PgColumn := ⟨n, "uuid", false, false, false, false⟩

/-- drizzle timestamp(n): a timestamp column with no modifier set. -/
def timestamp (n : String) : PgColumn := ⟨n, "timestamp", false, false, false, false⟩

/-- builder .notNull(): marks the column NOT NULL. -/
def PgColumn.notNull (c : PgColumn) : PgColumn := { c with isNotNull := true }

/-- builder .primaryKey(): marks the column as the primary key (hence a
unique identifier). -/
def PgColumn.primaryKey (c : PgColumn) : PgColumn := { c with isPrimaryKey := true }

/-- builder .defaultNow(): declares a default of now(), the insert time. -/
def PgColumn.defaultNow (c : PgColumn) : PgColumn :=
  { c with hasDefault := true, defaultIsNow := true }

/-- The three default columns merged into every table definition. -/
structure DefaultColumns where
  id : PgColumn
  createdAt : PgColumn
  updatedAt : PgColumn
deriving DecidableEq

/-- DEFAULT_COLUMNS from the source: id is uuid("id").notNull().primaryKey();
createdAt is timestamp("created_at").notNull().defaultNow(); updatedAt is
timestamp("updated_at").notNull().defaultNow(). -/
def DEFAULT_COLUMNS : DefaultColumns :=
  { id := (uuid "id").notNull.primaryKey
  , createdAt := (timestamp "created_at").notNull.defaultNow
  , updatedAt := (timestamp "updated_at").notNull.defaultNow }

/-! ### Projects rows and the operation inputs of the hooks source -/

/-- A stored projects row: the default columns plus the domain fields the
hooks source uses (name, description). Timestamps as abstract instants. -/
structure Row where
  id : String
  name : String
  description : String
  createdAt : Nat
  updatedAt : Nat
deriving DecidableEq

/-- ProjectCreateInput of the hooks source: Pick of name and description
(only these fields are sent on insert). -/
structure ProjectCreateInput where
  name : String
  description : String
deriving DecidableEq

/-- ProjectUpdateInput of the hooks source: Partial Pick of name and
description (only the supplied ones are sent on update). -/
structure ProjectUpdateInput where
  name : Option String
  description : Option String
deriving DecidableEq

/-- Insert semantics induced by the schema and the create input: the insert
sends only name and description; created_at and updated_at receive the now()
default declared in DEFAULT_COLUMNS; the id carries no declared default, so
its value must be supplied from outside the schema. -/
def insertRow (d : ProjectCreateInput) (suppliedId : String) (now : Nat) : Row :=
  { id := suppliedId, name := d.name, description := d.description
  , createdAt := now, updatedAt := now }

/-- Update semantics of the update mutationFn: only the caller-supplied
fields of the partial input are sent, so the stored row keeps every other
column unchanged. -/
def applyUpdate (r : Row) (u : ProjectUpdateInput) : Row :=
  { r with name := u.name.getD r.name, description := u.description.getD r.description }

/-! ### TanStack Query cache and the projects hooks
(src/.cursor/rules/client-tanstack-hooks.mdc) -/

/-- A supabase error (opaque message). -/
abbrev DbError := String

/-- A projects query key: the list key is the array with the single element
"projects"; a detail key is the array "projects", id. -/
inductive QKey where
  | list
  | byId (id : String)
deriving DecidableEq

/-- A cached query value: a list of rows (list query) or one row (detail
query). -/
inductive CVal where
  | several (rs : List Row)
  | single (r : Row)
deriving DecidableEq

/-- A cache entry: its value and whether it has been invalidated (stale). -/
structure Entry where
  val : CVal
  stale : Bool
deriving DecidableEq

/-- The query cache: entries keyed by query key. -/
abbrev Cache := List (QKey × Entry)

/-- TanStack invalidateQueries key matching is by array prefix: the filter
key "projects" matches both the list key and every detail key; the filter
key "projects", id matches only that detail key. -/
def keyMatches (f k : QKey) : Bool :=
  match f, k with
  | .list, _ => true
  | .byId i, .byId j => i = j
  | .byId _, .list => false

/-- queryClient.invalidateQueries: marks every entry whose key matches the
filter as stale; values are kept, nothing is removed. -/
def invalidateQueries : Cache → QKey → Cache
  | [], _ => []
  | e :: es, f =>
      (if keyMatches f e.1 then (e.1, ⟨e.2.val, true⟩) else e) :: invalidateQueries es f

/-- Lookup of the entry cached under a key. -/
def cacheLookup : Cache → QKey → Option Entry
  | [], _ => none
  | e :: es, k => if e.1 = k then some e.2 else cacheLookup es k

/-- Stores a fresh (non-stale) value under a key. -/
def cacheStoreFresh : Cache → QKey → CVal → Cache
  | [], k, v => [(k, ⟨v, false⟩)]
  | e :: es, k, v =>
      if e.1 = k then (k, ⟨v, false⟩) :: es else e :: cacheStoreFresh es k v

/-- A read of a query through the cache: a missing or stale entry triggers a
refetch from the backing store (whose current answer is fetched) and caches
it fresh; otherwise the cached value is served without a remote call. -/
def readQuery (c : Cache) (k : QKey) (fetched : CVal) : CVal × Cache :=
  match cacheLookup c k with
  | some e => if e.stale then (fetched, cacheStoreFresh c k fetched) else (e.val, c)
  | none => (fetched, cacheStoreFresh c k fetched)

/-- Counter of remote calls issued to supabase. -/
structure RemoteState where
  calls : Nat
deriving DecidableEq

/-- One remote call to supabase: hands back the backing service response and
bumps the call counter by one. -/
def remoteCall (st : RemoteState) (resp : Except DbError α) :
    Except DbError α × RemoteState :=
  (resp, ⟨st.calls + 1⟩)

/-- projectsQueryOptions.all queryFn: one select call over the projects
table; if error throw error, else return data. -/
def projectsAllQueryFn (st : RemoteState) (resp : Except DbError (List Row)) :
    Except DbError (List Row) × RemoteState :=
  let (r, st1) := remoteCall st resp
  (match r with
   | .error e => .error e
   | .ok d => .ok d, st1)

/-- projectsQueryOptions.byId queryFn: one select call filtered to the id,
single row; if error throw error, else return data. -/
def projectsByIdQueryFn (st : RemoteState) (_i : String) (resp : Except DbError Row) :
    Except DbError Row × RemoteState :=
  let (r, st1) := remoteCall st resp
  (match r with
   | .error e => .error e
   | .ok d => .ok d, st1)

/-- useCreateProject mutationFn: one insert call returning the inserted row;
if error throw error, else return result. -/
def createProjectMutationFn (st : RemoteState) (_d : ProjectCreateInput)
    (resp : Except DbError Row) : Except DbError Row × RemoteState :=
  let (r, st1) := remoteCall st resp
  (match r with
   | .error e => .error e
   | .ok row => .ok row, st1)

/-- useUpdateProject mutationFn: one update call filtered to the id returning
the updated row; if error throw error, else return result. -/
def updateProjectMutationFn (st : RemoteState) (_i : String) (_u : ProjectUpdateInput)
    (resp : Except DbError Row) : Except DbError Row × RemoteState :=
  let (r, st1) := remoteCall st resp
  (match r with
   | .error e => .error e
   | .ok row => .ok row, st1)

/-- useDeleteProject mutationFn: one delete call filtered to the id; if error
throw error, else return the id. -/
def deleteProjectMutationFn (st : RemoteState) (i : String)
    (resp : Except DbError Unit) : Except DbError String × RemoteState :=
  let (r, st1) := remoteCall st resp
  (match r with
   | .error e => .error e
   | .ok _ => .ok i, st1)

/-- Executing the create mutation through TanStack: run the mutationFn; only
on success does onSuccess run, invalidating the projects list key. On error
the cache is untouched and the error is reported to the caller. -/
def runCreateProject (c : Cache) (st : RemoteState) (d : ProjectCreateInput)
    (resp : Except DbError Row) : Except DbError Row × Cache × RemoteState :=
  match createProjectMutationFn st d resp with
  | (.ok row, st1) => (.ok row, invalidateQueries c .list, st1)
  | (.error e, st1) => (.error e, c, st1)

/-- Executing the update mutation through TanStack: on success, onSuccess
invalidates the projects list key and then the detail key of the returned
row id; on error the cache is untouched. -/
def runUpdateProject (c : Cache) (st : RemoteState) (i : String)
    (u : ProjectUpdateInput) (resp : Except DbError Row) :
    Except DbError Row × Cache × RemoteState :=
  match updateProjectMutationFn st i u resp with
  | (.ok row, st1) =>
      (.ok row, invalidateQueries (invalidateQueries c .list) (.byId row.id), st1)
  | (.error e, st1) => (.error e, c, st1)

/-- Executing the delete mutation through TanStack: on success, onSuccess
invalidates the projects list key; on error the cache is untouched. -/
def runDeleteProject (c : Cache) (st : RemoteState) (i : String)
    (resp : Except DbError Unit) : Except DbError String × Cache × RemoteState :=
  match deleteProjectMutationFn st i resp with
  | (.ok j, st1) => (.ok j, invalidateQueries c .list, st1)
  | (.error e, st1) => (.error e, c, st1)

/-! ### Shell layout toggle state (src/src/routes/_app.tsx) -/

/-- The initial opened flag of useDisclosure(): the navigation panel starts
closed. -/
def initialOpened : Bool := false

/-- The toggle operation of useDisclosure: negates the opened flag. -/
def toggleOpened (b : Bool) : Bool := !b

/-! ### Cache helper lemmas -/

/-- The key of a cache entry that a read must refetch: the entry is either
absent or marked stale. -/
def staleOrMissing (c : Cache) (k : QKey) : Prop :=
  match cacheLookup c k with
  | none => True
  | some e => e.stale = true

theorem cacheLookup_invalidateQueries (c : Cache) (f k : QKey) :
    cacheLookup (invalidateQueries c f) k =
      (cacheLookup c k).map
        (fun e => if keyMatches f k then ⟨e.val, true⟩ else e) := by
  induction c with
  | nil => rfl
  | cons hd tl ih =>
    by_cases hk : hd.1 = k
    · subst hk
      by_cases hm : keyMatches f hd.1 <;>
        simp [invalidateQueries, cacheLookup, hm]
    · by_cases hm : keyMatches f hd.1 <;>
        simp [invalidateQueries, cacheLookup, hm, hk, ih]

theorem readQuery_refetches (c : Cache) (k : QKey) (v : CVal)
    (h : staleOrMissing c k) : (readQuery c k v).1 = v := by
  unfold staleOrMissing at h
  cases hc : cacheLookup c k with
  | none => simp [readQuery, hc]
  | some e =>
    simp only [hc] at h
    simp [readQuery, hc, h]

theorem staleOrMissing_invalidate_of_match (c : Cache) (f k : QKey)
    (h : keyMatches f k = true) : staleOrMissing (invalidateQueries c f) k := by
  unfold staleOrMissing
  rw [cacheLookup_invalidateQueries]
  cases cacheLookup c k <;> simp [h]

theorem staleOrMissing_invalidate (c : Cache) (f k : QKey)
    (h : staleOrMissing c k) : staleOrMissing (invalidateQueries c f) k := by
  unfold staleOrMissing at *
  rw [cacheLookup_invalidateQueries]
  cases hc : cacheLookup c k with
  | none => simp
  | some e =>
    simp only [hc] at h
    by_cases hm : keyMatches f k <;> simp [hm, h]

/-! ### Claim theorems -/

/-- C1 (code bug, evaluated at the failing input): the source discards the
instance returned by basePath, so the projects sub-router is mounted at
"/projects", not under the "/api" prefix: the exported fetch answers 404 for
"/api/projects" while "/projects" reaches the sub-router. -/
theorem api_mount_not_under_api_prefix :
    Hono.fetch api ["api", "projects"] = notFoundResp ∧
    Hono.fetch api ["projects"] = ⟨200, "Hello World"⟩ :=
  ⟨rfl, rfl⟩

/-- Keeping the instance returned by basePath would mount the projects
sub-router under the "/api" prefix, matching the stated contract. -/
theorem api_mount_intended_shape :
    Hono.fetch ((Hono.new.basePath ["api"]).route ["projects"] projectsRouter)
      ["api", "projects"] = ⟨200, "Hello World"⟩ :=
  rfl

/-- C2 (counterexample): a navigation in which the session provider reports
no session and no error is not redirected — beforeLoad proceeds with the
null-session data and the protected subtree renders. -/
theorem session_absent_without_error_not_redirected :
    beforeLoad ⟨⟨none⟩, none⟩ = .proceed ⟨none⟩ ∧
    beforeLoad ⟨⟨none⟩, none⟩ ≠ .redirectTo "/login" := by
  exact ⟨rfl, by decide⟩

/-- C2 (amended): on a navigation with an absent session, the session gate
redirects to the login path only when the session query reports an error;
with no error it proceeds, handing the null-session data to the subtree. -/
theorem session_gate_redirects_only_on_error (msg : String) :
    beforeLoad ⟨⟨none⟩, some msg⟩ = .redirectTo "/login" ∧
    beforeLoad ⟨⟨none⟩, none⟩ = .proceed ⟨none⟩ :=
  ⟨rfl, rfl⟩

/-- C3: for every session query result, an error makes beforeLoad throw a
redirect to the login route (nothing below renders), and a success makes it
return the provider session data unchanged as the subtree context. -/
theorem beforeLoad_error_redirects_success_passes_context
    (d : SessionData) (msg : String) :
    beforeLoad ⟨d, some msg⟩ = .redirectTo "/login" ∧
    beforeLoad ⟨d, none⟩ = .proceed d :=
  ⟨rfl, rfl⟩

/-- C4: a request to the root path of the projects route handler returns
status 200 with the literal body "Hello World". -/
theorem projects_root_returns_hello_world :
    projectsRequest [] = ⟨200, "Hello World"⟩ :=
  rfl

/-- C5: after a successful create, update or delete mutation, the list query
is invalidated (and for update also the detail query of the affected id), so
a subsequent read of any of those queries returns the refetched backing-store
value rather than a cached one. -/
theorem mutation_success_invalidates_and_reads_refetch
    (c : Cache) (st : RemoteState) (d : ProjectCreateInput)
    (u : ProjectUpdateInput) (row : Row) (i : String) (fetched : CVal) :
    (readQuery (runCreateProject c st d (.ok row)).2.1 .list fetched).1 = fetched ∧
    (readQuery (runUpdateProject c st i u (.ok row)).2.1 .list fetched).1 = fetched ∧
    (readQuery (runUpdateProject c st i u (.ok row)).2.1 (.byId row.id) fetched).1
      = fetched ∧
    (readQuery (runDeleteProject c st i (.ok ())).2.1 .list fetched).1 = fetched := by
  refine ⟨?_, ?_, ?_, ?_⟩
  · exact readQuery_refetches _ _ _
      (staleOrMissing_invalidate_of_match c .list .list rfl)
  · exact readQuery_refetches _ _ _
      (staleOrMissing_invalidate (invalidateQueries c .list) (.byId row.id) .list
        (staleOrMissing_invalidate_of_match c .list .list rfl))
  · exact readQuery_refetches _ _ _
      (staleOrMissing_invalidate_of_match (invalidateQueries c .list)
        (.byId row.id) (.byId row.id) (by simp [keyMatches]))
  · exact readQuery_refetches _ _ _
      (staleOrMissing_invalidate_of_match c .list .list rfl)

/-- C6: every query and mutation function performs exactly one remote call
per invocation (the call counter rises by exactly one), and whenever the
call reports an error the operation returns exactly that error to the
caller, with no recovery, retry, or fallback result. -/
theorem operations_single_call_and_propagate_errors
    (st : RemoteState) (i : String) (d : ProjectCreateInput)
    (u : ProjectUpdateInput) (rlist : Except DbError (List Row))
    (rrow rrow2 : Except DbError Row) (runit : Except DbError Unit)
    (e : DbError) :
    ((projectsAllQueryFn st rlist).2.calls = st.calls + 1) ∧
    ((projectsByIdQueryFn st i rrow).2.calls = st.calls + 1) ∧
    ((createProjectMutationFn st d rrow).2.calls = st.calls + 1) ∧
    ((updateProjectMutationFn st i u rrow2).2.calls = st.calls + 1) ∧
    ((deleteProjectMutationFn st i runit).2.calls = st.calls + 1) ∧
    ((projectsAllQueryFn st (.error e)).1 = .error e) ∧
    ((projectsByIdQueryFn st i (.error e)).1 = .error e) ∧
    ((createProjectMutationFn st d (.error e)).1 = .error e) ∧
    ((updateProjectMutationFn st i u (.error e)).1 = .error e) ∧
    ((deleteProjectMutationFn st i (.error e)).1 = .error e) :=
  ⟨rfl, rfl, rfl, rfl, rfl, rfl, rfl, rfl, rfl, rfl⟩

/-- C7 (counterexample): the id column of DEFAULT_COLUMNS declares no
default, so the schema provides no mechanism generating its value at
creation; the claim as a whole is therefore false of the schema. -/
theorem default_columns_id_lacks_generated_default :
    ¬ (DEFAULT_COLUMNS.id.isNotNull = true ∧
       DEFAULT_COLUMNS.id.isPrimaryKey = true ∧
       DEFAULT_COLUMNS.id.hasDefault = true ∧
       DEFAULT_COLUMNS.createdAt.isNotNull = true ∧
       DEFAULT_COLUMNS.createdAt.defaultIsNow = true) := by
  decide

/-- C7 (amended): the id column is a non-null primary key (hence a unique
identifier) with no declared default — its value must be supplied at
creation; createdAt is a non-null timestamp defaulting to the creation time
and is never mutated by the update path, which sends only name and
description. -/
theorem default_columns_invariants (r : Row) (u : ProjectUpdateInput)
    (d : ProjectCreateInput) (g : String) (now : Nat) :
    DEFAULT_COLUMNS.id.isNotNull = true ∧
    DEFAULT_COLUMNS.id.isPrimaryKey = true ∧
    DEFAULT_COLUMNS.id.hasDefault = false ∧
    DEFAULT_COLUMNS.createdAt.isNotNull = true ∧
    DEFAULT_COLUMNS.createdAt.defaultIsNow = true ∧
    (insertRow d g now).createdAt = now ∧
    (applyUpdate r u).createdAt = r.createdAt :=
  ⟨rfl, rfl, rfl, rfl, rfl, rfl, rfl⟩

/-- C8: updatedAt defaults to the creation time at insert, and the update
mutation sends only the caller-supplied name and description, so an update
leaves the stored updatedAt unchanged (no mechanism refreshes it). -/
theorem updatedAt_set_at_creation_never_refreshed
    (d : ProjectCreateInput) (g : String) (now : Nat) (r : Row)
    (u : ProjectUpdateInput) :
    DEFAULT_COLUMNS.updatedAt.defaultIsNow = true ∧
    (insertRow d g now).updatedAt = now ∧
    (applyUpdate r u).updatedAt = r.updatedAt :=
  ⟨rfl, rfl, rfl⟩

/-- C9: the shell navigation state is one boolean that starts closed; the
toggle operation negates it, and applying toggle twice returns any state to
its original value. -/
theorem shell_toggle_state :
    initialOpened = false ∧ (∀ b : Bool, toggleOpened b = !b) ∧
    ∀ b : Bool, toggleOpened (toggleOpened b) = b := by
  refine ⟨rfl, fun b => rfl, fun b => ?_⟩
  cases b <;> rfl

/-- C10: when the remote call of a create, update or delete mutation reports
an error, no invalidation runs and the cache is left exactly as it was; the
error is reported to the caller. -/
theorem mutation_error_leaves_cache_unchanged
    (c : Cache) (st : RemoteState) (d : ProjectCreateInput)
    (u : ProjectUpdateInput) (i : String) (e : DbError) :
    (runCreateProject c st d (.error e)).2.1 = c ∧
    (runUpdateProject c st i u (.error e)).2.1 = c ∧
    (runDeleteProject c st i (.error e)).2.1 = c ∧
    (runCreateProject c st d (.error e)).1 = .error e ∧
    (runUpdateProject c st i u (.error e)).1 = .error e ∧
    (runDeleteProject c st i (.error e)).1 = .error e :=
  ⟨rfl, rfl, rfl, rfl, rfl, rfl⟩

end Starter
